import Mathlib

/-!
# go-restapi: session-authenticated REST service

A shallow embedding of the request-authentication and resource-access layer of the
repository:

* `internal/app/model/work.go` (`Work`, `Work.Validate`) together with the rules of
  `ozzo-validation` that `Validate` combines;
* `internal/app/store/sqlstore/workrepository.go` (`WorkRepository`) over a model of
  `database/sql`;
* `internal/app/apiserver/server.go` (`server.authenticateUser`,
  `server.handleSessionsCreate`, `server.error`, `server.respond`).

Go values are embedded as follows: `int` is `Int` (64-bit, products reduced with
`wrapInt`), `string` is `String` with `len` the byte length, `error` is `Option GoError`
(`none` is `nil`), a pointer receiver that is mutated is passed and returned explicitly.
-/

set_option autoImplicit false

namespace GoRestapi

/-! ## Go primitives -/

/-- Go's builtin `len` on a string: the number of bytes of its UTF-8 encoding. -/
def len (s : String) : Nat := s.utf8ByteSize

/-- Smallest value of Go's 64-bit `int`. -/
def minInt : Int := -(2 ^ 63)

/-- Largest value of Go's 64-bit `int`. -/
def maxInt : Int := 2 ^ 63 - 1

/-- Two's-complement reduction of a mathematical integer to Go's 64-bit `int`. -/
def wrapInt (x : Int) : Int := (x + 2 ^ 63) % 2 ^ 64 - 2 ^ 63

/-- Go's `a * b` on `int`. -/
def mulInt (a b : Int) : Int := wrapInt (a * b)

/-- Go's `error` values met in the embedded code. -/
inductive GoError
  /-- An error made by `errors.New(msg)` or `fmt.Errorf` in a library. -/
  | new (msg : String)
  /-- A `validation.Errors` map, field name to message, in key order. -/
  | validationErrors (errs : List (String × String))
  /-- The sentinel `sql.ErrNoRows`. -/
  | ErrNoRows
  /-- The sentinel `store.ErrRecordNotFound`. -/
  | ErrRecordNotFound
  deriving DecidableEq, Repr

/-- The method `Error()`: the message of an error. A `validation.Errors` lists its fields
as `key: message` joined by `; ` and closed by a full stop. The message of
`store.ErrRecordNotFound`, which is declared outside the sources, is taken to be
`record not found`. -/
def GoError.Error : GoError → String
  | .new msg => msg
  | .validationErrors errs => "; ".intercalate (errs.map fun kv => kv.1 ++ ": " ++ kv.2) ++ "."
  | .ErrNoRows => "sql: no rows in result set"
  | .ErrRecordNotFound => "record not found"

/-- Result of a Go function that may panic instead of returning. -/
inductive Outcome (α : Type)
  | ret (a : α)
  | panic (err : GoError)
  deriving DecidableEq, Repr

/-- Continues with the returned value; a panic passes through. -/
def Outcome.map {α β : Type} (f : α → β) : Outcome α → Outcome β
  | .ret a => .ret (f a)
  | .panic err => .panic err

/-! ## `ozzo-validation` rules used by `Work.Validate` -/

namespace validation

/-- The reflected value of a struct field handed to a rule. -/
inductive Value
  | int (n : Int)
  | string (s : String)
  deriving DecidableEq, Repr

/-- Embeds `validation.IsEmpty`: a zero integer or a string of length zero. -/
def IsEmpty : Value → Bool
  | .int n => n == 0
  | .string s => len s == 0

/-- Embeds `validation.EnsureString`: only strings (and byte slices) are accepted. -/
def EnsureString : Value → Except String String
  | .string s => .ok s
  | .int _ => .error "must be either a string or byte slice"

/-- Embeds `validation.LengthOfValue`: `len` of a string; integers have no length. -/
def LengthOfValue : Value → Except String Nat
  | .string s => .ok (len s)
  | .int _ => .error "cannot get the length of int"

/-- A rule returns the message of its error, `none` for `nil`. -/
abbrev Rule := Value → Option String

/-- Embeds `validation.Required`. -/
def Required : Rule := fun value =>
  if IsEmpty value then some "cannot be blank" else none

/-- Embeds `validation.NewStringRule(validator, message)`: `StringRule.Validate` skips empty
values, fails on a value that `EnsureString` rejects, then runs the validator. -/
def NewStringRule (validator : String → Bool) (message : String) : Rule := fun value =>
  if IsEmpty value then none
  else match EnsureString value with
    | .error e => some e
    | .ok str => if validator str then none else some message

/-- The message `validation.Length(min, max)` builds. -/
def lengthMessage (min max : Nat) : String :=
  if min = 0 ∧ max > 0 then s!"the length must be no more than {max}"
  else if min > 0 ∧ max = 0 then s!"the length must be no less than {min}"
  else if min > 0 ∧ max > 0 then
    if min = max then s!"the length must be exactly {min}"
    else s!"the length must be between {min} and {max}"
  else "the value must be empty"

/-- Embeds `validation.Length(min, max)`: `LengthRule.Validate` skips empty values and
compares `LengthOfValue` with the bounds. -/
def Length (min max : Nat) : Rule := fun value =>
  if IsEmpty value then none
  else match LengthOfValue value with
    | .error e => some e
    | .ok l =>
      if (min > 0 ∧ l < min) ∨ (max > 0 ∧ l > max) then some (lengthMessage min max)
      else none

/-- Embeds `validation.Validate(value, rules...)`: the error of the first failing rule. -/
def Validate (value : Value) : List Rule → Option String
  | [] => none
  | rule :: rules =>
    match rule value with
    | some e => some e
    | none => Validate value rules

/-- Embeds `validation.Field(&field, rules...)`, with the name `ValidateStruct` reports the
field under (its `json` tag). -/
structure FieldRules where
  name : String
  value : Value
  rules : List Rule

/-- Embeds `validation.Field`. -/
def Field (name : String) (value : Value) (rules : List Rule) : FieldRules :=
  { name := name, value := value, rules := rules }

/-- The `validation.Errors` entries `ValidateStruct` collects, one per failing field. -/
def fieldErrors : List FieldRules → List (String × String)
  | [] => []
  | fr :: fields =>
    match Validate fr.value fr.rules with
    | some e => (fr.name, e) :: fieldErrors fields
    | none => fieldErrors fields

/-- Embeds `validation.ValidateStruct`: `nil` when no field failed, else the `Errors` map. -/
def ValidateStruct (fields : List FieldRules) : Option GoError :=
  let errs := fieldErrors fields
  if errs.length > 0 then some (.validationErrors errs) else none

end validation

/-- Embeds `govalidator.IsInt`: the empty string, or an optional sign followed by `0` or by
digits that do not start with `0`. -/
def govalidator.IsInt (str : String) : Bool :=
  if len str == 0 then true
  else
    let cs := str.toList
    let ds := match cs with
      | '-' :: t => t
      | '+' :: t => t
      | _ => cs
    match ds with
    | [] => false
    | d :: t => (d == '0' && t.isEmpty) || ('1' ≤ d && d ≤ '9' && t.all Char.isDigit)

/-- The rule `is.Int` of `ozzo-validation/is`: a string rule over `govalidator.IsInt`. -/
def is.Int : validation.Rule :=
  validation.NewStringRule govalidator.IsInt "must be an integer number"

/-! ## `model.Work` -/

/-- Embeds `model.Work`. -/
structure Work where
  ID : Int
  CreatorId : Int
  Name : String
  Description : String
  DocumentLinks : List String
  deriving DecidableEq, Repr

/-- Embeds `Work.Validate`. -/
def Work.Validate (w : Work) : Option GoError :=
  validation.ValidateStruct [
    validation.Field "creator_id" (.int w.CreatorId) [validation.Required, is.Int],
    validation.Field "name" (.string w.Name) [validation.Required, validation.Length 5 100]]

/-! ## `database/sql` over the PostgreSQL tables of the service -/

namespace sql

/-- A `driver.Value` of a result column, as `lib/pq` hands it to `database/sql`. -/
inductive Value
  | null
  | int64 (n : Int)
  | bytes (s : String)
  deriving DecidableEq, Repr

/-- An argument bound to a placeholder of a statement. -/
inductive Arg
  | int (n : Int)
  | string (s : String)
  | strings (l : List String)
  deriving DecidableEq, Repr

/-- A statement sent to the database: the SQL text and the bound arguments. -/
structure Stmt where
  query : String
  args : List Arg
  deriving DecidableEq, Repr

/-- A row of the table `works(id, creator_id, name, description, document_links)`. -/
structure WorkRow where
  id : Int
  creator_id : Int
  name : String
  description : String
  document_links : List String
  deriving DecidableEq, Repr

/-- The database server: from the `works` table and a statement, the result set (or the
error) and the table afterwards. -/
abbrev Engine := List WorkRow → Stmt → Except GoError (List (List Value)) × List WorkRow

/-- The handle `*sql.DB`: the server behind it, its `works` table and the statements sent so
far, oldest first. -/
structure DB where
  engine : Engine
  works : List WorkRow
  log : List Stmt

/-- The `*sql.Row` of `QueryRow`: the deferred error and the result set. -/
structure Row where
  err : Option GoError
  rows : List (List Value)
  deriving DecidableEq, Repr

/-- A pointer to a field of a `Work`, as passed to `Scan`. -/
inductive Dest
  | ID
  | CreatorId
  | Name
  | Description
  | DocumentLinks
  deriving DecidableEq, Repr

/-- Embeds `strconv.ParseInt(s, 10, 64)`. -/
def parseInt (s : String) : Option Int :=
  let cs := s.toList
  let signed : Bool × List Char := match cs with
    | '-' :: t => (true, t)
    | '+' :: t => (false, t)
    | _ => (false, cs)
  if signed.2.isEmpty || !signed.2.all Char.isDigit then none
  else
    let n : Nat := signed.2.foldl (fun acc c => acc * 10 + (c.toNat - 48)) 0
    let v : Int := if signed.1 then -(n : Int) else (n : Int)
    if minInt ≤ v ∧ v ≤ maxInt then some v else none

/-- Embeds `convertAssign` into an `int` field. -/
def convertInt : Value → Except String Int
  | .null => .error "converting NULL to int is unsupported"
  | .int64 n => .ok n
  | .bytes s =>
    match parseInt s with
    | some n => .ok n
    | none => .error s!"converting driver.Value type []uint8 ({s}) to a int: invalid syntax"

/-- Embeds `convertAssign` into a `string` field. -/
def convertString : Value → Except String String
  | .null => .error "converting NULL to string is unsupported"
  | .int64 n => .ok (toString n)
  | .bytes s => .ok s

/-- Embeds `convertAssign(dest, src)` for the destinations the repository scans into; a
`*[]string` is no supported destination. -/
def convertAssign (dest : Dest) (src : Value) (w : Work) : Except String Work :=
  match dest with
  | .ID => (convertInt src).map fun n => { w with ID := n }
  | .CreatorId => (convertInt src).map fun n => { w with CreatorId := n }
  | .Name => (convertString src).map fun s => { w with Name := s }
  | .Description => (convertString src).map fun s => { w with Description := s }
  | .DocumentLinks =>
    .error "unsupported Scan, storing driver.Value type []uint8 into type *[]string"

/-- The assignment loop of `Rows.Scan` from column index `i` on: each column into the
destination at its position, stopping at the first error with the earlier destinations
already written. -/
def assignAll (i : Nat) : List Value → List Dest → Work → Option GoError × Work
  | src :: cols, d :: dest, w =>
    match convertAssign d src w with
    | .error e => (some (.new s!"sql: Scan error on column index {i}: {e}"), w)
    | .ok w1 => assignAll (i + 1) cols dest w1
  | _, _, w => (none, w)

/-- Embeds `Rows.Scan(dest...)` on the current row: the number of destinations must be the
number of columns. -/
def Rows.Scan (cols : List Value) (dest : List Dest) (w : Work) : Option GoError × Work :=
  if dest.length ≠ cols.length then
    (some (.new
      s!"sql: expected {cols.length} destination arguments in Scan, not {dest.length}"), w)
  else assignAll 0 cols dest w

/-- Embeds `Row.Scan(dest...)`: the deferred error, `ErrNoRows` on an empty result set, else the
scan of the first row. -/
def Row.Scan (r : Row) (dest : List Dest) (w : Work) : Option GoError × Work :=
  match r.err with
  | some e => (some e, w)
  | none =>
    match r.rows with
    | [] => (some .ErrNoRows, w)
    | cols :: _ => Rows.Scan cols dest w

/-- Embeds `db.Query(query, args...)`: sends the statement and returns the result set or the
error. -/
def DB.Query (db : DB) (query : String) (args : List Arg) :
    Except GoError (List (List Value)) × DB :=
  let stmt : Stmt := { query := query, args := args }
  let res := db.engine db.works stmt
  (res.1, { db with works := res.2, log := db.log ++ [stmt] })

/-- Embeds `db.QueryRow(query, args...)`: runs `Query` and wraps result and error in a `Row`. -/
def DB.QueryRow (db : DB) (query : String) (args : List Arg) : Row × DB :=
  match db.Query query args with
  | (.ok rows, db1) => ({ err := none, rows := rows }, db1)
  | (.error e, db1) => ({ err := some e, rows := [] }, db1)

/-- The columns `id, creator_id, name, description, document_links` of a row. -/
def selectColumns (r : WorkRow) : List Value :=
  [.int64 r.id, .int64 r.creator_id, .bytes r.name, .bytes r.description,
    .bytes ("\x7b" ++ ",".intercalate r.document_links ++ "\x7d")]

/-- The rows of the table in `ORDER BY id` order. -/
def orderById (works : List WorkRow) : List WorkRow :=
  works.insertionSort (fun a b => a.id ≤ b.id)

/-- PostgreSQL on the three well-formed `SELECT` statements of the repository. A negative
`LIMIT` or `OFFSET` is an error; so is every other statement text. -/
def postgres : Engine := fun works stmt =>
  if stmt.query =
      "SELECT id, creator_id, name, description, document_links FROM works WHERE id = $1" then
    match stmt.args with
    | [.int id] => (.ok ((works.filter (fun r => r.id == id)).map selectColumns), works)
    | _ => (.error (.new "pq: wrong number or type of parameters"), works)
  else if stmt.query =
      "SELECT id, creator_id, name, description, document_links FROM works WHERE name = $1" then
    match stmt.args with
    | [.string name] =>
      (.ok ((works.filter (fun r => r.name == name)).map selectColumns), works)
    | _ => (.error (.new "pq: wrong number or type of parameters"), works)
  else if stmt.query =
      "SELECT id, creator_id, name, description, document_links FROM works ORDER BY id LIMIT $1 OFFSET $2" then
    match stmt.args with
    | [.int limit, .int offset] =>
      if limit < 0 then (.error (.new "pq: LIMIT must not be negative"), works)
      else if offset < 0 then (.error (.new "pq: OFFSET must not be negative"), works)
      else
        (.ok ((((orderById works).drop offset.toNat).take limit.toNat).map selectColumns),
          works)
    | _ => (.error (.new "pq: wrong number or type of parameters"), works)
  else (.error (.new "pq: statement rejected"), works)

end sql

/-! ## `sqlstore.WorkRepository` -/

/-- Embeds `sqlstore.Store`. -/
structure Store where
  db : sql.DB

/-- Embeds `sqlstore.WorkRepository`. -/
structure WorkRepository where
  store : Store

namespace WorkRepository

/-- Embeds `WorkRepository.Create`: the error, the `Work` behind the pointer afterwards, and the
repository afterwards. -/
def Create (r : WorkRepository) (w : Work) : Option GoError × Work × WorkRepository :=
  match w.Validate with
  | some err => (some err, w, r)
  | none =>
    let q := r.store.db.QueryRow
      "INSERT INTO users (creator_id, name, description, document_links) VALUES ($1, $2, $3, $5) RETURNING id"
      [.int w.CreatorId, .string w.Name, .string w.Description, .strings w.DocumentLinks]
    let s := q.1.Scan [.ID] w
    (s.1, s.2, { store := { db := q.2 } })

/-- Embeds `WorkRepository.Find`: the `*model.Work` (`none` is `nil`), the error, and the
repository afterwards. -/
def Find (r : WorkRepository) (id : Int) : (Option Work × Option GoError) × WorkRepository :=
  let w : Work := { ID := 0, CreatorId := 0, Name := "", Description := "", DocumentLinks := [] }
  let q := r.store.db.QueryRow
    "SELECT id, creator_id, name, description, document_links FROM works WHERE id = $1"
    [.int id]
  let r1 : WorkRepository := { store := { db := q.2 } }
  match q.1.Scan [.ID, .CreatorId, .Description, .DocumentLinks] w with
  | (some err, _) =>
    if err = .ErrNoRows then ((none, some .ErrRecordNotFound), r1)
    else ((none, some err), r1)
  | (none, w1) => ((some w1, none), r1)

/-- Embeds `WorkRepository.FindByName`. -/
def FindByName (r : WorkRepository) (name : String) :
    (Option Work × Option GoError) × WorkRepository :=
  let w : Work := { ID := 0, CreatorId := 0, Name := "", Description := "", DocumentLinks := [] }
  let q := r.store.db.QueryRow
    "SELECT id, creator_id, name, description, document_links FROM works WHERE name = $1"
    [.string name]
  let r1 : WorkRepository := { store := { db := q.2 } }
  match q.1.Scan [.ID, .CreatorId, .Name, .Description, .DocumentLinks] w with
  | (some err, _) =>
    if err = .ErrNoRows then ((none, some .ErrRecordNotFound), r1)
    else ((none, some err), r1)
  | (none, w1) => ((some w1, none), r1)

/-- Embeds `WorkRepository.Delete`: the value tested against `nil` is the `*sql.Row` that
`QueryRow` returns, which is never `nil`. -/
def Delete (r : WorkRepository) (workId userId : Int) : Option GoError × WorkRepository :=
  let q := r.store.db.QueryRow
    "DELETE FROM works WHERE id='$1' AND creator_id='$2'"
    [.int workId, .int userId]
  let err : Option sql.Row := some q.1
  let r1 : WorkRepository := { store := { db := q.2 } }
  if err ≠ none then (some .ErrRecordNotFound, r1)
  else (none, r1)

/-- The loop `for rows.Next() { rows.Scan(...); sw = append(sw, *mw) }` of `FindAll` and
`FindAllByName`, with `mw` reused between rows; a scan error panics. -/
def scanLoop : List (List sql.Value) → Work → List Work → Outcome (List Work)
  | [], _, sw => .ret sw
  | cols :: rows, mw, sw =>
    match sql.Rows.Scan cols [.ID, .CreatorId, .Description, .DocumentLinks] mw with
    | (some err, _) => .panic err
    | (none, mw1) => scanLoop rows mw1 (sw ++ [mw1])

/-- Embeds `WorkRepository.FindAll`. -/
def FindAll (r : WorkRepository) (numberOfItems pageNumber : Int) :
    Outcome (List Work × Option GoError) × WorkRepository :=
  let mw : Work := { ID := 0, CreatorId := 0, Name := "", Description := "", DocumentLinks := [] }
  let o := mulInt numberOfItems pageNumber
  let sw : List Work := []
  let q := r.store.db.Query
    "SELECT id, creator_id, name, description, document_links FROM works ORDER BY id LIMIT $1 OFFSET $2"
    [.int numberOfItems, .int o]
  let r1 : WorkRepository := { store := { db := q.2 } }
  match q.1 with
  | .error err => (.panic err, r1)
  | .ok rows =>
    match scanLoop rows mw sw with
    | .panic err => (.panic err, r1)
    | .ret sw1 => (.ret (sw1, none), r1)

/-- Embeds `WorkRepository.FindAllByName`. -/
def FindAllByName (r : WorkRepository) (name : String) (numberOfItems pageNumber : Int) :
    Outcome (List Work × Option GoError) × WorkRepository :=
  let mw : Work := { ID := 0, CreatorId := 0, Name := "", Description := "", DocumentLinks := [] }
  let o := mulInt numberOfItems pageNumber
  let sw : List Work := []
  let q := r.store.db.Query
    "SELECT id, creator_id, name, description, document_links FROM works WHERE name LIKE '%$1%' ORDER BY id LIMIT $2 OFFSET $3"
    [.string name, .int numberOfItems, .int o]
  let r1 : WorkRepository := { store := { db := q.2 } }
  match q.1 with
  | .error err => (.panic err, r1)
  | .ok rows =>
    match scanLoop rows mw sw with
    | .panic err => (.panic err, r1)
    | .ret sw1 => (.ret (sw1, none), r1)

end WorkRepository

/-! ## `apiserver.server` -/

/-- Modelled from the spec: `model.User`, whose file is not among the sources: an integer
id, an email and a password; `server.go` reads `ID` and writes `Email` and `Password`. -/
structure User where
  ID : Int
  Email : String
  Password : String
  deriving DecidableEq, Repr

/-- A non-nil `interface{}` payload handed to the JSON encoder. -/
inductive Data
  /-- A `map[string]string`, as a list of its entries. -/
  | stringMap (m : List (String × String))
  /-- A `*model.User`. -/
  | user (u : User)
  /-- A `*model.Work`. -/
  | work (w : Work)
  /-- A `[]model.Work`. -/
  | works (ws : List Work)
  /-- A `[]string`. -/
  | strings (l : List String)
  deriving DecidableEq, Repr

/-- The `http.ResponseWriter` of the `net/http` server, as the handler observes it: the
status code committed as the response header (`none` while `wroteHeader` is false), the
values whose JSON encoding `Write` accepted into the body, in order, and the informational
1xx responses sent ahead of the header. -/
structure ResponseWriter where
  code : Option Int
  body : List Data
  interim : List Int := []
  deriving DecidableEq, Repr

namespace ResponseWriter

/-- A writer nothing was written to. -/
def fresh : ResponseWriter := { code := none, body := [] }

/-- Embeds `bodyAllowedForStatus` of `net/http`: no body with a 1xx, 204 or 304 status. -/
def bodyAllowedForStatus (status : Int) : Bool :=
  if 100 ≤ status ∧ status ≤ 199 then false
  else if status = 204 then false
  else if status = 304 then false
  else true

/-- Embeds `w.WriteHeader(code)` of the `net/http` server. A call after the header was
written is ignored. Otherwise `checkWriteHeaderCode` panics on a code below 100 or above
999; a 1xx code other than 101 is sent as an informational response and commits nothing;
any other code is committed as the status. -/
def WriteHeader (w : ResponseWriter) (code : Int) : Outcome ResponseWriter :=
  match w.code with
  | some _ => .ret w
  | none =>
    if code < 100 ∨ code > 999 then .panic (.new s!"invalid WriteHeader code {code}")
    else if 100 ≤ code ∧ code ≤ 199 ∧ code ≠ 101 then
      .ret { w with interim := w.interim ++ [code] }
    else .ret { w with code := some code }

/-- Embeds `w.Write(b)` of the `net/http` server for a non-empty document: a write before
the header commits status 200; the document is accepted only if the committed status
allows a body, else `Write` returns `ErrBodyNotAllowed` and the body is left alone. -/
def Write (w : ResponseWriter) (data : Data) : ResponseWriter × Option GoError :=
  let status : Int := w.code.getD 200
  let w1 : ResponseWriter := { w with code := some status }
  if bodyAllowedForStatus status then ({ w1 with body := w1.body ++ [data] }, none)
  else (w1, some (.new "http: request method or response status code does not allow body"))

/-- Embeds `json.NewEncoder(w).Encode(data)`: one JSON document handed to `Write`, whose
error it returns. -/
def Encode (w : ResponseWriter) (data : Data) : ResponseWriter × Option GoError :=
  w.Write data

end ResponseWriter

namespace http

/-- Embeds `http.StatusOK`. -/
def StatusOK : Int := 200

/-- Embeds `http.StatusBadRequest`. -/
def StatusBadRequest : Int := 400

/-- Embeds `http.StatusUnauthorized`. -/
def StatusUnauthorized : Int := 401

/-- Embeds `http.StatusInternalServerError`. -/
def StatusInternalServerError : Int := 500

/-- An `*http.Request`: the raw body, the `Cookie` header the session store reads, and the
user stored in the context under `ctxKeyUser`. -/
structure Request where
  Body : String
  Cookie : String
  ctxUser : Option User
  deriving DecidableEq, Repr

/-- An `http.Handler`, as its effect on the response writer. -/
abbrev Handler := ResponseWriter → Request → ResponseWriter

end http

namespace sessions

/-- An `interface{}` value stored in a session. -/
inductive Value
  | int (n : Int)
  | string (s : String)
  | bool (b : Bool)
  deriving DecidableEq, Repr

/-- A `*sessions.Session`: the map `Values`, as a list of entries. -/
structure Session where
  Values : List (String × Value)
  deriving DecidableEq, Repr

/-- The assignment `session.Values[key] = value`. -/
def Session.set (s : Session) (key : String) (value : Value) : Session :=
  { Values := (key, value) :: s.Values.filter (fun kv => kv.1 != key) }

/-- The interface `sessions.Store`: `Get(r, name)` and the error of `Save(r, w, session)`. -/
structure Store where
  Get : http.Request → String → Except GoError Session
  Save : http.Request → Session → Option GoError

end sessions

/-- The interface `store.UserRepository`, for the two lookups the server calls. -/
structure UserRepository where
  Find : Int → Except GoError User
  FindByEmail : String → Except GoError User

/-- The interface `store.Store`, for the repository the server calls: `User()`. -/
structure store.Store where
  User : UserRepository

/-- The body of `POST /session`, the struct `request` of `handleSessionsCreate`. -/
structure SessionRequest where
  Email : String
  Password : String
  deriving DecidableEq, Repr

/-- The struct `server`, for the collaborators the embedded handlers call. `Decode` is
`json.NewDecoder(r.Body).Decode(req)` and `ComparePassword` the method of `model.User`;
both are taken as given. -/
structure server where
  store : store.Store
  sessionStore : sessions.Store
  Decode : String → Except GoError SessionRequest
  ComparePassword : User → String → Bool

/-- What serving one request did: the response writer, the requests the wrapped handler
was called with, the assignments made to session values, and the sessions handed to
`Save`. -/
structure Exchange where
  w : ResponseWriter
  served : List http.Request
  sessionSets : List (String × sessions.Value)
  saved : List sessions.Session
  deriving DecidableEq, Repr

/-- The exchange before any handler ran. -/
def Exchange.start : Exchange :=
  { w := ResponseWriter.fresh, served := [], sessionSets := [], saved := [] }

/-- The constant `sessionName`. -/
def sessionName : String := "check"

/-- The variable `errIncorrectEmailOrPassword`. -/
def errIncorrectEmailOrPassword : GoError := .new "incorrect email or password"

/-- The variable `errNotAuthenticated`. -/
def errNotAuthenticated : GoError := .new "not authenticated"

namespace server

/-- Embeds `server.respond`: a panic of `WriteHeader` passes through, and the error that
`Encode` returns is dropped. -/
def respond (_s : server) (w : ResponseWriter) (_r : http.Request) (code : Int)
    (data : Option Data) : Outcome ResponseWriter :=
  match w.WriteHeader code with
  | .panic err => .panic err
  | .ret w1 =>
    match data with
    | some d => .ret (w1.Encode d).1
    | none => .ret w1

/-- Embeds `server.error`. -/
def error (s : server) (w : ResponseWriter) (r : http.Request) (code : Int)
    (err : GoError) : Outcome ResponseWriter :=
  s.respond w r code (some (.stringMap [("error", err.Error)]))

/-- Embeds `server.authenticateUser`: the handler it returns, run on a request. The type
assertion `id.(int)` panics on a value that is no `int`. -/
def authenticateUser (s : server) (next : http.Handler) (ex : Exchange)
    (r : http.Request) : Outcome Exchange :=
  match s.sessionStore.Get r sessionName with
  | .error err =>
    (s.error ex.w r http.StatusInternalServerError err).map fun w => { ex with w := w }
  | .ok session =>
    match session.Values.lookup "user_id" with
    | none =>
      (s.error ex.w r http.StatusUnauthorized errNotAuthenticated).map fun w =>
        { ex with w := w }
    | some (.int id) =>
      match s.store.User.Find id with
      | .error _ =>
        (s.error ex.w r http.StatusUnauthorized errNotAuthenticated).map fun w =>
          { ex with w := w }
      | .ok u =>
        let r1 : http.Request := { r with ctxUser := some u }
        .ret { ex with w := next ex.w r1, served := ex.served ++ [r1] }
    | some _ => .panic (.new "interface conversion: interface {} is not int")

/-- Embeds `server.handleSessionsCreate`: the handler it returns, run on a request. -/
def handleSessionsCreate (s : server) (ex : Exchange) (r : http.Request) :
    Outcome Exchange :=
  match s.Decode r.Body with
  | .error err => (s.error ex.w r http.StatusBadRequest err).map fun w => { ex with w := w }
  | .ok req =>
    match s.store.User.FindByEmail req.Email with
    | .error _ =>
      (s.error ex.w r http.StatusUnauthorized errIncorrectEmailOrPassword).map fun w =>
        { ex with w := w }
    | .ok u =>
      if !s.ComparePassword u req.Password then
        (s.error ex.w r http.StatusUnauthorized errIncorrectEmailOrPassword).map fun w =>
          { ex with w := w }
      else
        match s.sessionStore.Get r sessionName with
        | .error err =>
          (s.error ex.w r http.StatusInternalServerError err).map fun w =>
            { ex with w := w }
        | .ok session =>
          let session1 := session.set "user_id" (.int u.ID)
          let ex1 : Exchange := { ex with
            sessionSets := ex.sessionSets ++ [("user_id", .int u.ID)],
            saved := ex.saved ++ [session1] }
          match s.sessionStore.Save r session1 with
          | some err =>
            (s.error ex1.w r http.StatusInternalServerError err).map fun w =>
              { ex1 with w := w }
          | none => (s.respond ex1.w r http.StatusOK none).map fun w => { ex1 with w := w }

end server

/-- The window `[OFFSET, OFFSET + LIMIT)` of positions in `ORDER BY id` order selected by
the statement that `FindAll pageSize pageIndex` sends, read off the log. -/
def WorkRepository.pageWindow (r : WorkRepository) (pageSize pageIndex : Int) :
    Option (Int × Int) :=
  match (r.FindAll pageSize pageIndex).2.store.db.log.getLast? with
  | some { query := _, args := [.int limit, .int offset] } => some (offset, offset + limit)
  | _ => none

/-- Whether position `k` lies in a window. -/
def inWindow (k : Int) : Option (Int × Int) → Prop
  | some (start, stop) => start ≤ k ∧ k < stop
  | none => False

/-- Whether a committed status is a client error, 400 to 499. -/
def isClientError : Option Int → Prop
  | some code => 400 ≤ code ∧ code < 500
  | none => False

/-- The status an outcome of `authenticateUser` committed, `none` if it panicked or wrote
no header. -/
def responseCode : Outcome Exchange → Option Int
  | .ret ex => ex.w.code
  | .panic _ => none

/-- How many times an outcome of `authenticateUser` called the wrapped handler. -/
def handlerCalls : Outcome Exchange → Nat
  | .ret ex => ex.served.length
  | .panic _ => 0

/-! ## Sample stores, servers and requests -/

/-- A Work with the empty name, as decoded from a body without `name`. -/
def emptyNameWork : Work :=
  { ID := 7, CreatorId := 1, Name := "", Description := "d", DocumentLinks := [] }

/-- A Work with a positive creator and a name of five bytes. -/
def helloWork : Work :=
  { ID := 0, CreatorId := 1, Name := "hello", Description := "", DocumentLinks := [] }

/-- Two works of creator 1. -/
def sampleWorks : List sql.WorkRow :=
  [{ id := 1, creator_id := 1, name := "hello", description := "first", document_links := [] },
   { id := 2, creator_id := 1, name := "world", description := "second",
     document_links := ["a", "b"] }]

/-- A repository over PostgreSQL holding `sampleWorks`, nothing sent yet. -/
def sampleRepository : WorkRepository :=
  { store := { db := { engine := sql.postgres, works := sampleWorks, log := [] } } }

/-- A user repository that knows user 1, `a@b.com`. -/
def sampleUsers : UserRepository where
  Find := fun id =>
    if id = 1 then .ok { ID := 1, Email := "a@b.com", Password := "" }
    else .error .ErrRecordNotFound
  FindByEmail := fun email =>
    if email = "a@b.com" then .ok { ID := 1, Email := "a@b.com", Password := "" }
    else .error .ErrRecordNotFound

/-- A session store keyed by the cookie: `garbled` fails to decode, `user1` and `user9`
carry a user id, any other cookie gives a new session without values. -/
def sampleSessions : sessions.Store where
  Get := fun r _ =>
    if r.Cookie = "garbled" then .error (.new "securecookie: the value is not valid")
    else if r.Cookie = "user1" then .ok { Values := [("user_id", .int 1)] }
    else if r.Cookie = "user9" then .ok { Values := [("user_id", .int 9)] }
    else .ok { Values := [] }
  Save := fun _ _ => none

/-- A server over `sampleUsers` and `sampleSessions`; the password of every user is
`secret`. -/
def sampleServer : server where
  store := { User := sampleUsers }
  sessionStore := sampleSessions
  Decode := fun body =>
    if body = "\x7b\"email\":\"a@b.com\",\"password\":\"secret\"\x7d" then
      .ok { Email := "a@b.com", Password := "secret" }
    else if body = "\x7b\"email\":\"a@b.com\",\"password\":\"wrong\"\x7d" then
      .ok { Email := "a@b.com", Password := "wrong" }
    else .error (.new "unexpected EOF")
  ComparePassword := fun _ password => password == "secret"

/-- A wrapped handler that answers 200 with a list of strings. -/
def sampleNext : http.Handler := fun w _ => (w.Encode (.strings ["ok"])).1

/-- A request without a session cookie. -/
def anonymousRequest : http.Request := { Body := "", Cookie := "", ctxUser := none }

/-- A request whose session cookie does not decode. -/
def garbledCookieRequest : http.Request :=
  { Body := "", Cookie := "garbled", ctxUser := none }

/-- A request whose session names a user the store does not hold. -/
def unknownUserRequest : http.Request := { Body := "", Cookie := "user9", ctxUser := none }

/-- A `POST /session` for `a@b.com` with a wrong password. -/
def wrongPasswordRequest : http.Request :=
  { Body := "\x7b\"email\":\"a@b.com\",\"password\":\"wrong\"\x7d", Cookie := "",
    ctxUser := none }

/-! ## Lemmas -/

/-- The rules of the `creator_id` field reject every integer: zero is blank, and any other
integer is no string for `is.Int`. -/
theorem validate_creator_some (n : Int) :
    ∃ m, validation.Validate (.int n) [validation.Required, is.Int] = some m := by
  by_cases h : n = 0
  · exact ⟨"cannot be blank", by simp [validation.Validate, validation.Required,
      validation.IsEmpty, h]⟩
  · exact ⟨"must be either a string or byte slice", by
      simp [validation.Validate, validation.Required, validation.IsEmpty, h, is.Int,
        validation.NewStringRule, validation.EnsureString]⟩

/-- The rules of the `name` field reject a name shorter than 5 or longer than 100 bytes. -/
theorem validate_name_some (name : String) (h : len name < 5 ∨ 100 < len name) :
    ∃ m, validation.Validate (.string name)
      [validation.Required, validation.Length 5 100] = some m := by
  by_cases h0 : len name = 0
  · exact ⟨"cannot be blank", by simp [validation.Validate, validation.Required,
      validation.IsEmpty, h0]⟩
  · refine ⟨validation.lengthMessage 5 100, ?_⟩
    have hc : len name < 5 ∨ 100 < len name := h
    simp [validation.Validate, validation.Required, validation.IsEmpty, h0,
      validation.Length, validation.LengthOfValue, hc]

/-- The rules of the `name` field accept a name of 5 to 100 bytes, bounds included. -/
theorem validate_name_none (name : String) (h5 : 5 ≤ len name) (h100 : len name ≤ 100) :
    validation.Validate (.string name)
      [validation.Required, validation.Length 5 100] = none := by
  have h0 : len name ≠ 0 := by omega
  have hc : ¬ (len name < 5 ∨ 100 < len name) := by omega
  simp [validation.Validate, validation.Required, validation.IsEmpty, h0,
    validation.Length, validation.LengthOfValue, if_neg hc]

/-- Whatever the `Work`, `Work.Validate` returns a `validation.Errors` with an entry for
`creator_id`: it never returns `nil`. -/
theorem Work.Validate_creator_error (w : Work) :
    ∃ errs m, w.Validate = some (.validationErrors errs) ∧ ("creator_id", m) ∈ errs := by
  obtain ⟨m, hm⟩ := validate_creator_some w.CreatorId
  cases hn : validation.Validate (.string w.Name)
      [validation.Required, validation.Length 5 100] with
  | none =>
    exact ⟨[("creator_id", m)], m, by
      simp [Work.Validate, validation.ValidateStruct, validation.fieldErrors,
        validation.Field, hm, hn], by simp⟩
  | some e =>
    exact ⟨[("creator_id", m), ("name", e)], m, by
      simp [Work.Validate, validation.ValidateStruct, validation.fieldErrors,
        validation.Field, hm, hn], by simp⟩

/-- With a creator other than zero, the only complaint about a Work with a name of 5 to
100 bytes is that of `is.Int` about the integer `creator_id`. -/
theorem Work.Validate_valid_name (w : Work) (hc : w.CreatorId ≠ 0) (h5 : 5 ≤ len w.Name)
    (h100 : len w.Name ≤ 100) :
    w.Validate =
      some (.validationErrors [("creator_id", "must be either a string or byte slice")]) := by
  have hn := validate_name_none w.Name h5 h100
  have hm : validation.Validate (.int w.CreatorId) [validation.Required, is.Int] =
      some "must be either a string or byte slice" := by
    simp [validation.Validate, validation.Required, validation.IsEmpty, hc, is.Int,
      validation.NewStringRule, validation.EnsureString]
  simp [Work.Validate, validation.ValidateStruct, validation.fieldErrors,
    validation.Field, hm, hn]

/-- Scanning a row of five columns into four destinations fails on the arity check. -/
theorem scan_four_of_five (cols : List sql.Value) (w : Work) (h : cols.length = 5) :
    sql.Rows.Scan cols [.ID, .CreatorId, .Description, .DocumentLinks] w =
      (some (.new "sql: expected 5 destination arguments in Scan, not 4"), w) := by
  have hm : (s!"sql: expected {5} destination arguments in Scan, not {4}" : String) =
      "sql: expected 5 destination arguments in Scan, not 4" := by decide
  simp only [sql.Rows.Scan, h, List.length_cons, List.length_nil]
  rw [if_pos (by decide)]
  exact congrArg (fun m => (some (GoError.new m), w)) hm

/-- For an id some row of the table has, PostgreSQL answers the `SELECT ... WHERE id = $1`
of `Find` with at least one row of the five selected columns. -/
theorem postgres_find_rows (works : List sql.WorkRow) (id : Int)
    (h : ∃ row ∈ works, row.id = id) :
    ∃ row rest, (sql.postgres works
      { query := "SELECT id, creator_id, name, description, document_links FROM works WHERE id = $1",
        args := [.int id] }) = (.ok (sql.selectColumns row :: rest), works) := by
  obtain ⟨row, hmem, hid⟩ := h
  have hne : works.filter (fun r => r.id == id) ≠ [] := by
    intro hnil
    have : row ∈ works.filter (fun r => r.id == id) := by
      simp [List.mem_filter, hmem, hid]
    rw [hnil] at this
    simp at this
  cases hf : works.filter (fun r => r.id == id) with
  | nil => exact absurd hf hne
  | cons a t =>
    refine ⟨a, t.map sql.selectColumns, ?_⟩
    simp [sql.postgres, hf]

/-- On a PostgreSQL store that holds a row with the id asked for, `Find` returns the arity
error of `Scan` and no `Work`. -/
theorem Find_row_present (works : List sql.WorkRow) (log : List sql.Stmt) (id : Int)
    (h : ∃ row ∈ works, row.id = id) :
    (WorkRepository.Find
      { store := { db := { engine := sql.postgres, works := works, log := log } } } id).1 =
      (none, some (.new "sql: expected 5 destination arguments in Scan, not 4")) := by
  obtain ⟨row, rest, hq⟩ := postgres_find_rows works id h
  have hs := fun w => scan_four_of_five (sql.selectColumns row) w rfl
  simp [WorkRepository.Find, sql.DB.QueryRow, sql.DB.Query, hq, sql.Row.Scan, hs]

/-- Whatever the store and the arguments, `Delete` returns `store.ErrRecordNotFound`. -/
theorem Delete_always_not_found (r : WorkRepository) (workId userId : Int) :
    (r.Delete workId userId).1 = some .ErrRecordNotFound := by
  simp [WorkRepository.Delete]

/-- A value inside the range of `int` is left alone by the reduction. -/
theorem wrapInt_of_range (x : Int) (hlo : minInt ≤ x) (hhi : x ≤ maxInt) : wrapInt x = x := by
  simp only [wrapInt, minInt, maxInt] at *
  omega

/-- The statement `FindAll` sends, whatever the store answers. -/
theorem FindAll_log (r : WorkRepository) (pageSize pageIndex : Int) :
    (r.FindAll pageSize pageIndex).2.store.db.log = r.store.db.log ++
      [{ query := "SELECT id, creator_id, name, description, document_links FROM works ORDER BY id LIMIT $1 OFFSET $2",
         args := [.int pageSize, .int (mulInt pageSize pageIndex)] }] := by
  simp only [WorkRepository.FindAll, sql.DB.Query]
  split
  · rfl
  · split <;> rfl

/-- The statement `FindAllByName` sends, whatever the store answers. -/
theorem FindAllByName_log (r : WorkRepository) (name : String) (pageSize pageIndex : Int) :
    (r.FindAllByName name pageSize pageIndex).2.store.db.log = r.store.db.log ++
      [{ query := "SELECT id, creator_id, name, description, document_links FROM works WHERE name LIKE '%$1%' ORDER BY id LIMIT $2 OFFSET $3",
         args := [.string name, .int pageSize, .int (mulInt pageSize pageIndex)] }] := by
  simp only [WorkRepository.FindAllByName, sql.DB.Query]
  split
  · rfl
  · split <;> rfl

/-- On the sample store the first page of five holds rows, and the scan of the first row
makes `FindAll` panic. -/
theorem FindAll_sample_page_panics :
    (sampleRepository.FindAll 5 0).1 =
      .panic (.new "sql: expected 5 destination arguments in Scan, not 4") := by
  decide

/-- The window of a page, from the statement `FindAll` sends. -/
theorem pageWindow_eq (r : WorkRepository) (pageSize pageIndex : Int) :
    r.pageWindow pageSize pageIndex =
      some (mulInt pageSize pageIndex, mulInt pageSize pageIndex + pageSize) := by
  simp [WorkRepository.pageWindow, FindAll_log]

/-- A key that no entry of the map carries is looked up in vain. -/
theorem lookup_none_of_not_mem (values : List (String × sessions.Value)) (key : String)
    (h : ∀ v, (key, v) ∉ values) : values.lookup key = none := by
  induction values with
  | nil => rfl
  | cons kv rest ih =>
    obtain ⟨k, v⟩ := kv
    have hk : key ≠ k := by
      intro hk
      exact h v (by simp [hk])
    have hrest : ∀ v, (key, v) ∉ rest := fun v hv => h v (List.mem_cons_of_mem _ hv)
    have hb : (key == k) = false := by simpa using hk
    simp [List.lookup, hb, ih hrest]

/-! ## Authentication middleware -/

/-- Claim C1: when the session store returns a session without error and the session has
no `user_id` entry, `authenticateUser` answers status 401 with the body
`{"error": "not authenticated"}` and calls the wrapped handler zero times. -/
theorem C1_no_user_id_unauthorized (s : server) (next : http.Handler) (r : http.Request)
    (session : sessions.Session)
    (hget : s.sessionStore.Get r sessionName = .ok session)
    (hno : ∀ v, ("user_id", v) ∉ session.Values) :
    s.authenticateUser next Exchange.start r =
      .ret { w := { code := some 401, body := [.stringMap [("error", "not authenticated")]] },
             served := [], sessionSets := [], saved := [] } := by
  have hl := lookup_none_of_not_mem session.Values "user_id" hno
  simp only [server.authenticateUser, hget, hl]
  rfl

/-- Claim C1 at a request without a session cookie on the sample server. -/
theorem C1_no_user_id_unauthorized_witness :
    sampleServer.sessionStore.Get anonymousRequest sessionName = .ok { Values := [] } ∧
    sampleServer.authenticateUser sampleNext Exchange.start anonymousRequest =
      .ret { w := { code := some 401, body := [.stringMap [("error", "not authenticated")]] },
             served := [], sessionSets := [], saved := [] } :=
  ⟨by rfl, C1_no_user_id_unauthorized sampleServer sampleNext anonymousRequest
    { Values := [] } (by rfl) (by simp)⟩

/-- Claim C2 fails as stated: on a request whose session cookie does not decode the
session lookup fails, the wrapped handler is not called, and the status is 500, which is
no client error. -/
theorem C2_counterexample_session_error_is_500 :
    sampleServer.sessionStore.Get garbledCookieRequest sessionName =
      .error (.new "securecookie: the value is not valid") ∧
    handlerCalls
      (sampleServer.authenticateUser sampleNext Exchange.start garbledCookieRequest) = 0 ∧
    responseCode
      (sampleServer.authenticateUser sampleNext Exchange.start garbledCookieRequest) =
        some 500 ∧
    ¬ isClientError (responseCode
      (sampleServer.authenticateUser sampleNext Exchange.start garbledCookieRequest)) := by
  refine ⟨by rfl, by decide, by decide, ?_⟩
  have h : responseCode
      (sampleServer.authenticateUser sampleNext Exchange.start garbledCookieRequest) =
        some 500 := by decide
  rw [h]
  simp [isClientError]

/-- Claim C2, amended: when the session lookup fails, `authenticateUser` answers status
500 with the message of the session store's error; when the session has no `user_id`
entry, or the user lookup for its integer `user_id` fails, it answers status 401 with
`not authenticated`; in all three cases the wrapped handler is not called. -/
theorem C2_short_circuit_statuses (s : server) (next : http.Handler) (r : http.Request) :
    (∀ err, s.sessionStore.Get r sessionName = .error err →
      s.authenticateUser next Exchange.start r =
        .ret { w := { code := some 500, body := [.stringMap [("error", err.Error)]] },
               served := [], sessionSets := [], saved := [] }) ∧
    (∀ session, s.sessionStore.Get r sessionName = .ok session →
      (∀ v, ("user_id", v) ∉ session.Values) →
      s.authenticateUser next Exchange.start r =
        .ret { w := { code := some 401, body := [.stringMap [("error", "not authenticated")]] },
               served := [], sessionSets := [], saved := [] }) ∧
    (∀ session id err, s.sessionStore.Get r sessionName = .ok session →
      session.Values.lookup "user_id" = some (.int id) →
      s.store.User.Find id = .error err →
      s.authenticateUser next Exchange.start r =
        .ret { w := { code := some 401, body := [.stringMap [("error", "not authenticated")]] },
               served := [], sessionSets := [], saved := [] }) := by
  refine ⟨?_, ?_, ?_⟩
  · intro err hget
    simp only [server.authenticateUser, hget]
    rfl
  · intro session hget hno
    have hl := lookup_none_of_not_mem session.Values "user_id" hno
    simp only [server.authenticateUser, hget, hl]
    rfl
  · intro session id err hget hl hfind
    simp only [server.authenticateUser, hget, hl, hfind]
    rfl

/-- Claim C2, amended, at a request whose session names a user the store does not hold. -/
theorem C2_short_circuit_statuses_witness :
    sampleServer.sessionStore.Get unknownUserRequest sessionName =
      .ok { Values := [("user_id", .int 9)] } ∧
    sampleServer.store.User.Find 9 = .error .ErrRecordNotFound ∧
    sampleServer.authenticateUser sampleNext Exchange.start unknownUserRequest =
      .ret { w := { code := some 401, body := [.stringMap [("error", "not authenticated")]] },
             served := [], sessionSets := [], saved := [] } :=
  ⟨by rfl, by rfl,
    (C2_short_circuit_statuses sampleServer sampleNext unknownUserRequest).2.2
      { Values := [("user_id", .int 9)] } 9 .ErrRecordNotFound (by rfl) (by rfl) (by rfl)⟩

/-! ## Work validation and creation -/

/-- Claim C3: for every Work whose name length is outside [5,100] (the empty name
included), `WorkRepository.Create` returns a validation error, one that holds an entry
for `name`; it sends no statement to the store, whose log and table stay as they were,
and leaves the ID of the Work unchanged. -/
theorem C3_create_rejects_name_length (r : WorkRepository) (w : Work)
    (h : len w.Name < 5 ∨ 100 < len w.Name) :
    (∃ errs m, (r.Create w).1 = some (.validationErrors errs) ∧ ("name", m) ∈ errs) ∧
      (r.Create w).2.2.store.db.log = r.store.db.log ∧
      (r.Create w).2.2.store.db.works = r.store.db.works ∧
      (r.Create w).2.1.ID = w.ID := by
  obtain ⟨mc, hmc⟩ := validate_creator_some w.CreatorId
  obtain ⟨mn, hmn⟩ := validate_name_some w.Name h
  have hv : w.Validate = some (.validationErrors [("creator_id", mc), ("name", mn)]) := by
    simp [Work.Validate, validation.ValidateStruct, validation.fieldErrors,
      validation.Field, hmc, hmn]
  simp [WorkRepository.Create, hv]

/-- Claim C3 at the Work with the empty name on the sample repository. -/
theorem C3_create_rejects_name_length_witness :
    (len emptyNameWork.Name < 5 ∨ 100 < len emptyNameWork.Name) ∧
    ((∃ errs m, (sampleRepository.Create emptyNameWork).1 = some (.validationErrors errs) ∧
        ("name", m) ∈ errs) ∧
      (sampleRepository.Create emptyNameWork).2.2.store.db.log = [] ∧
      (sampleRepository.Create emptyNameWork).2.2.store.db.works = sampleWorks ∧
      (sampleRepository.Create emptyNameWork).2.1.ID = 7) :=
  ⟨by decide, C3_create_rejects_name_length sampleRepository emptyNameWork (by decide)⟩

/-- Claim C4 at its failing input: a Work with creator 1 and the five-byte name `hello`
is rejected by `Work.Validate`, because the string rule `is.Int` is applied to the
integer field `CreatorId`. -/
theorem C4_validate_rejects_positive_creator :
    0 < helloWork.CreatorId ∧ 5 ≤ len helloWork.Name ∧ len helloWork.Name ≤ 100 ∧
    helloWork.Validate =
      some (.validationErrors [("creator_id", "must be either a string or byte slice")]) := by
  decide

/-! ## Work lookup and deletion -/

/-- Claim C5 at its failing input: the sample store holds a row with id 1, and `Find 1`
returns no Work but the error of scanning five columns into four destinations. -/
theorem C5_find_existing_row_fails :
    (∃ row ∈ sampleRepository.store.db.works, row.id = 1) ∧
    (sampleRepository.Find 1).1 =
      (none, some (.new "sql: expected 5 destination arguments in Scan, not 4")) := by
  decide

/-- Claim C6 at its failing input: the sample store holds work 1 of creator 1, and the
first `Delete 1 1` already returns the not-found error. -/
theorem C6_first_delete_not_found :
    (∃ row ∈ sampleRepository.store.db.works, row.id = 1 ∧ row.creator_id = 1) ∧
    (sampleRepository.Delete 1 1).1 = some .ErrRecordNotFound := by
  decide

/-! ## Pagination -/

/-- Claim C7 fails as stated: with page size 0 and page index -1, `FindAll` sends its
query to the store and returns an empty slice with a nil error; with page size 5 and page
index -1 the query it sends carries the offset -5. -/
theorem C7_counterexample_unchecked_page :
    (sampleRepository.FindAll 0 (-1)).1 = .ret ([], none) ∧
    (sampleRepository.FindAll 0 (-1)).2.store.db.log =
      [{ query := "SELECT id, creator_id, name, description, document_links FROM works ORDER BY id LIMIT $1 OFFSET $2",
         args := [.int 0, .int 0] }] ∧
    (sampleRepository.FindAll 5 (-1)).2.store.db.log =
      [{ query := "SELECT id, creator_id, name, description, document_links FROM works ORDER BY id LIMIT $1 OFFSET $2",
         args := [.int 5, .int (-5)] }] := by
  decide

/-- Claim C7, amended: `FindAll` and `FindAllByName` check neither argument. Whatever the
page size and page index, each call sends exactly one query to the store, with the page
size as `LIMIT` and their product (in `int`) as `OFFSET`, and never returns a non-nil
error: it returns works with a nil error or panics. -/
theorem C7_find_all_sends_query_unchecked (r : WorkRepository) (name : String)
    (pageSize pageIndex : Int) :
    ((r.FindAll pageSize pageIndex).2.store.db.log = r.store.db.log ++
        [{ query := "SELECT id, creator_id, name, description, document_links FROM works ORDER BY id LIMIT $1 OFFSET $2",
           args := [.int pageSize, .int (mulInt pageSize pageIndex)] }] ∧
      ∀ ws err, (r.FindAll pageSize pageIndex).1 ≠ .ret (ws, some err)) ∧
    ((r.FindAllByName name pageSize pageIndex).2.store.db.log = r.store.db.log ++
        [{ query := "SELECT id, creator_id, name, description, document_links FROM works WHERE name LIKE '%$1%' ORDER BY id LIMIT $2 OFFSET $3",
           args := [.string name, .int pageSize, .int (mulInt pageSize pageIndex)] }] ∧
      ∀ ws err, (r.FindAllByName name pageSize pageIndex).1 ≠ .ret (ws, some err)) := by
  refine ⟨⟨FindAll_log r pageSize pageIndex, ?_⟩,
    ⟨FindAllByName_log r name pageSize pageIndex, ?_⟩⟩
  · intro ws err
    simp only [WorkRepository.FindAll]
    split
    · simp
    · split <;> simp
  · intro ws err
    simp only [WorkRepository.FindAllByName]
    split
    · simp
    · split <;> simp

/-- Claim C9: for a positive page size and page indices `i`, `j` that are not negative and
whose offsets do not overflow `int`, `FindAll` sends the `ORDER BY id` query with the page
size as `LIMIT` and `pageSize * i` as `OFFSET`; the window of page `i + 1` starts where
the window of page `i` ends; and the windows of two distinct pages share no position. -/
theorem C9_find_all_pages (r : WorkRepository) (pageSize i j : Int)
    (hs : 0 < pageSize) (hi : 0 ≤ i) (hj : 0 ≤ j)
    (hoi : pageSize * (i + 1) ≤ maxInt) (hoj : pageSize * j ≤ maxInt) :
    (r.FindAll pageSize i).2.store.db.log = r.store.db.log ++
        [{ query := "SELECT id, creator_id, name, description, document_links FROM works ORDER BY id LIMIT $1 OFFSET $2",
           args := [.int pageSize, .int (pageSize * i)] }] ∧
      r.pageWindow pageSize i = some (pageSize * i, pageSize * i + pageSize) ∧
      r.pageWindow pageSize (i + 1) =
        some (pageSize * i + pageSize, pageSize * i + pageSize + pageSize) ∧
      (i ≠ j → ∀ k, ¬ (inWindow k (r.pageWindow pageSize i) ∧
        inWindow k (r.pageWindow pageSize j))) := by
  have hmin : minInt ≤ 0 := by decide
  have hpi : 0 ≤ pageSize * i := Int.mul_nonneg hs.le hi
  have hpj : 0 ≤ pageSize * j := Int.mul_nonneg hs.le hj
  have hstep : pageSize * (i + 1) = pageSize * i + pageSize := by ring
  have hwi : mulInt pageSize i = pageSize * i :=
    wrapInt_of_range _ (by omega) (by omega)
  have hwi1 : mulInt pageSize (i + 1) = pageSize * i + pageSize := by
    rw [← hstep]
    exact wrapInt_of_range _ (by omega) (by omega)
  have hwj : mulInt pageSize j = pageSize * j :=
    wrapInt_of_range _ (by omega) (by omega)
  refine ⟨?_, ?_, ?_, ?_⟩
  · rw [FindAll_log, hwi]
  · rw [pageWindow_eq, hwi]
  · rw [pageWindow_eq, hwi1]
  · intro hij k
    rw [pageWindow_eq, pageWindow_eq, hwi, hwj]
    simp only [inWindow]
    rintro ⟨⟨h1, h2⟩, h3, h4⟩
    rcases lt_or_gt_of_ne hij with hlt | hgt
    · have : pageSize * (i + 1) ≤ pageSize * j :=
        Int.mul_le_mul_of_nonneg_left (by omega) hs.le
      omega
    · have : pageSize * (j + 1) ≤ pageSize * i :=
        Int.mul_le_mul_of_nonneg_left (by omega) hs.le
      have hstepj : pageSize * (j + 1) = pageSize * j + pageSize := by ring
      omega

/-- Claim C9 at pages 0 and 1 of size 5 on the sample repository. -/
theorem C9_find_all_pages_witness :
    ((0 : Int) < 5 ∧ (5 : Int) * (0 + 1) ≤ maxInt ∧ (5 : Int) * 1 ≤ maxInt) ∧
    ((sampleRepository.FindAll 5 0).2.store.db.log = sampleRepository.store.db.log ++
        [{ query := "SELECT id, creator_id, name, description, document_links FROM works ORDER BY id LIMIT $1 OFFSET $2",
           args := [.int 5, .int (5 * 0)] }] ∧
      sampleRepository.pageWindow 5 0 = some (5 * 0, 5 * 0 + 5) ∧
      sampleRepository.pageWindow 5 (0 + 1) = some (5 * 0 + 5, 5 * 0 + 5 + 5) ∧
      ((0 : Int) ≠ 1 → ∀ k, ¬ (inWindow k (sampleRepository.pageWindow 5 0) ∧
        inWindow k (sampleRepository.pageWindow 5 1)))) :=
  ⟨by decide, C9_find_all_pages sampleRepository 5 0 1 (by decide) (by decide) (by decide)
    (by decide) (by decide)⟩

/-! ## Response encoding and session creation -/

/-- Claim C10: when the body of a session-creation request decodes and either the lookup
by email fails or the password does not match the user found, `handleSessionsCreate`
answers status 401 with the body `{"error": "incorrect email or password"}`, assigns no
session value and saves no session. -/
theorem C10_bad_credentials_unauthorized (s : server) (r : http.Request)
    (req : SessionRequest)
    (hdec : s.Decode r.Body = .ok req)
    (hbad : (∃ err, s.store.User.FindByEmail req.Email = .error err) ∨
      (∃ u, s.store.User.FindByEmail req.Email = .ok u ∧
        s.ComparePassword u req.Password = false)) :
    s.handleSessionsCreate Exchange.start r =
      .ret { w := { code := some 401,
                    body := [.stringMap [("error", "incorrect email or password")]] },
             served := [], sessionSets := [], saved := [] } := by
  rcases hbad with ⟨err, herr⟩ | ⟨u, hu, hcmp⟩
  · simp only [server.handleSessionsCreate, hdec, herr]
    rfl
  · simp only [server.handleSessionsCreate, hdec, hu, hcmp]
    rfl

/-- Claim C10 at a request for `a@b.com` with a wrong password on the sample server. -/
theorem C10_bad_credentials_unauthorized_witness :
    sampleServer.Decode wrongPasswordRequest.Body =
      .ok { Email := "a@b.com", Password := "wrong" } ∧
    sampleServer.handleSessionsCreate Exchange.start wrongPasswordRequest =
      .ret { w := { code := some 401,
                    body := [.stringMap [("error", "incorrect email or password")]] },
             served := [], sessionSets := [], saved := [] } :=
  ⟨by rfl, C10_bad_credentials_unauthorized sampleServer wrongPasswordRequest
    { Email := "a@b.com", Password := "wrong" } (by rfl)
    (Or.inr ⟨{ ID := 1, Email := "a@b.com", Password := "" }, by rfl, by rfl⟩)⟩

end GoRestapi
